import Mathlib

/-!
# SimStudio photometric engine — verification of the preset/modifier computation core

Shallow embedding of the photometric preset/modifier engine of
`src/asset_library.py` (functions `apply_light_preset`, `update_power_percent`,
`apply_modifier_to_light`, `clear_modifiers`) together with proofs of the
spec's claims about it.

Modelling conventions:
* Python floats are modelled as exact rationals (`ℚ`); every arithmetic
  operation of the engine (`*`, `/`, `-`, `min`, multiplication by the literal
  `0.15`) is translated literally.
* Python strings are modelled as `List Char`; `str.split(<comma>)` is
  `List.splitOn`, string concatenation is `++`, and the truthiness test
  `if s:` is the emptiness test.  A dict key that may be absent
  (`d.get(k, default)` / `k not in d`) is an `Option` field read with `getD`.
* Blender stores a spot light's cone as `spot_size` in radians, and the code
  converts with `math.radians` (the strictly monotone linear bijection
  `x * pi / 180`, under which `min(radians x, pi) = radians (min x 180)`).
  To stay in `ℚ` the model tracks the cone angle in degrees in the field
  `spot_size_deg`; every comparison and cap of the source is preserved
  exactly under this bijection.
* Host-API side effects that do not touch the photometric state
  (`bpy.context.view_layer.update()`) are omitted.
-/

namespace SimStudio

/-- Blender light types; the engine only ever distinguishes SPOT from the
rest (`light_data.type == SPOT`). -/
inductive LType where
  | spot
  | point
  | sun
  | area
deriving DecidableEq

/-- Modifier kinds: the source compares the JSON string field `type` against
the literals `grid`, `diffuser`, `softbox`; any other value (including the
default `unknown`) falls through with no beam-angle branch. -/
inductive ModKind where
  | grid
  | diffuser
  | softbox
  | other
deriving DecidableEq

/-- The `specs` sub-dictionary of a light preset JSON record; every field may
be absent (the code reads each with a `.get` default). -/
structure LightSpecs where
  lumens : Option ℚ
  beam_angle_deg : Option ℚ
  power_watts : Option ℚ
  cct_kelvin : Option ℚ
deriving DecidableEq

/-- A light preset record: `name` and `specs` may each be absent. A `none`
passed for the whole record models falsy `preset_data`. -/
structure PresetData where
  name : Option (List Char)
  specs : Option LightSpecs
deriving DecidableEq

/-- The `specs` sub-dictionary of a modifier JSON record. The source reads the
keys `light_loss_percent`, `output_beam_angle_deg`, `edge_falloff`,
`beam_angle_modifier_deg` and `softness` (the latter with default 0.5 on the
diffuser branch and 0.75 on the softbox branch). -/
structure ModifierSpecs where
  light_loss_percent : Option ℚ
  output_beam_angle_deg : Option ℚ
  edge_falloff : Option ℚ
  beam_angle_modifier_deg : Option ℚ
  softness : Option ℚ
deriving DecidableEq

/-- A modifier preset record (`modifier_data` in the source). -/
structure ModifierData where
  name : Option (List Char)
  mtype : ModKind
  specs : Option ModifierSpecs
deriving DecidableEq

/-- The mutable Blender light datablock as the engine sees it: the built-in
fields `type`, `energy`, `temperature`, `spot_size` (here in degrees, see the
file comment), `spot_blend`, plus the custom `ss_*` properties the engine
stores on it.  `ss_power_percent` is an `Option` because the source tests
membership (`ss_power_percent not in light_data`); `ss_modifiers` always
reads with default the empty string, so it is a plain `List Char`. -/
structure LightData where
  type : LType
  energy : ℚ
  temperature : ℚ
  spot_size_deg : ℚ
  spot_blend : ℚ
  ss_preset_name : Option (List Char)
  ss_base_lumens : Option ℚ
  ss_base_beam_angle : Option ℚ
  ss_power_watts : Option ℚ
  ss_power_percent : Option ℚ
  ss_effective_lumens : Option ℚ
  ss_modifiers : List Char
deriving DecidableEq

/-- Default name used by the source when a record lacks a `name` key. -/
def unknownName : List Char := ['U', 'n', 'k', 'n', 'o', 'w', 'n']

/-- `apply_light_preset(light_data, preset_data)` from `src/asset_library.py`
lines 99–137.  Returns the success flag together with the updated light. -/
def apply_light_preset (light_data : LightData) (preset_data : Option PresetData) :
    Bool × LightData :=
  match preset_data with
  | none => (false, light_data)
  | some pd =>
    match pd.specs with
    | none => (false, light_data)
    | some specs =>
      let l1 : LightData := { light_data with type := LType.spot }
      let base_lumens : ℚ := specs.lumens.getD 12000
      let l2 : LightData := { l1 with
        ss_preset_name := some (pd.name.getD unknownName),
        ss_base_lumens := some base_lumens,
        ss_base_beam_angle := some (specs.beam_angle_deg.getD 120),
        ss_power_watts := some (specs.power_watts.getD 200) }
      let l3 : LightData :=
        if l2.ss_power_percent = none then
          { l2 with ss_power_percent := some 100 }
        else l2
      let power_pct : ℚ := l3.ss_power_percent.getD 100 / 100
      let l4 : LightData := { l3 with
        energy := base_lumens * power_pct / 100,
        ss_effective_lumens := some (base_lumens * power_pct),
        temperature := specs.cct_kelvin.getD 5600 }
      let l5 : LightData :=
        if l4.type = LType.spot then
          { l4 with
            spot_size_deg := min (specs.beam_angle_deg.getD 120) 180,
            spot_blend := 0.15 }
        else l4
      (true, l5)

/-- `update_power_percent(light_data)` from `src/asset_library.py` lines
139–153 (the power-change path, with its flat 0.15-per-modifier estimate). -/
def update_power_percent (light_data : LightData) : LightData :=
  let base_lumens : ℚ := light_data.ss_base_lumens.getD 12000
  let power_pct : ℚ := light_data.ss_power_percent.getD 100 / 100
  let modifiers : List Char := light_data.ss_modifiers
  let modifier_loss : ℚ :=
    if modifiers = [] then 0
    else ((modifiers.splitOn ',').length : ℚ) * 0.15
  let effective_lumens : ℚ := base_lumens * power_pct * (1 - modifier_loss)
  { light_data with
    energy := effective_lumens / 100,
    ss_effective_lumens := some effective_lumens }

/-- `apply_modifier_to_light(light_data, modifier_data)` from
`src/asset_library.py` lines 155–201. -/
def apply_modifier_to_light (light_data : LightData)
    (modifier_data : Option ModifierData) : Bool × LightData :=
  match modifier_data with
  | none => (false, light_data)
  | some md =>
    match md.specs with
    | none => (false, light_data)
    | some specs =>
      let mod_type := md.mtype
      let base_lumens : ℚ := light_data.ss_base_lumens.getD (light_data.energy * 100)
      let base_angle : ℚ := light_data.ss_base_beam_angle.getD 120
      let light_loss : ℚ := specs.light_loss_percent.getD 0 / 100
      let effective_lumens : ℚ := base_lumens * (1 - light_loss)
      let l1 : LightData := { light_data with energy := effective_lumens / 100 }
      let l2 : LightData :=
        if l1.type = LType.spot then
          match mod_type with
          | ModKind.grid =>
            { l1 with
              spot_size_deg := specs.output_beam_angle_deg.getD base_angle,
              spot_blend := specs.edge_falloff.getD 0.5 }
          | ModKind.diffuser =>
            { l1 with
              spot_size_deg := min (base_angle + specs.beam_angle_modifier_deg.getD 0) 180,
              spot_blend := specs.softness.getD 0.5 }
          | ModKind.softbox =>
            { l1 with
              spot_size_deg := specs.output_beam_angle_deg.getD 90,
              spot_blend := specs.softness.getD 0.75 }
          | ModKind.other => l1
        else l1
      let current_mods : List Char := l2.ss_modifiers
      let l3 : LightData :=
        if current_mods ≠ [] then
          { l2 with ss_modifiers := current_mods ++ ',' :: md.name.getD unknownName }
        else
          { l2 with ss_modifiers := md.name.getD unknownName }
      (true, { l3 with ss_effective_lumens := some effective_lumens })

/-- `clear_modifiers(light_data)` from `src/asset_library.py` lines 203–215. -/
def clear_modifiers (light_data : LightData) : LightData :=
  let base_lumens : ℚ := light_data.ss_base_lumens.getD (light_data.energy * 100)
  let base_angle : ℚ := light_data.ss_base_beam_angle.getD 120
  let l1 : LightData := { light_data with energy := base_lumens / 100 }
  let l2 : LightData :=
    if l1.type = LType.spot then
      { l1 with spot_size_deg := base_angle, spot_blend := 0.15 }
    else l1
  { l2 with ss_modifiers := [], ss_effective_lumens := some base_lumens }

/-- The derived `EffectiveOutput` record of the spec, read off a light:
`effectiveLumens = ss_effective_lumens`, `effectiveEnergy = energy`,
`currentBeamAngleDegrees = spot_size_deg`, `currentBlend = spot_blend`. -/
structure EffectiveOutput where
  effectiveLumens : Option ℚ
  effectiveEnergy : ℚ
  currentBeamAngleDegrees : ℚ
  currentBlend : ℚ
deriving DecidableEq

/-- Projection of a light's derived output values. -/
def effectiveOutput (l : LightData) : EffectiveOutput :=
  { effectiveLumens := l.ss_effective_lumens,
    effectiveEnergy := l.energy,
    currentBeamAngleDegrees := l.spot_size_deg,
    currentBlend := l.spot_blend }

/-- A fresh, never-configured Blender light (no `ss_*` keys present). -/
def initLight : LightData :=
  { type := LType.point,
    energy := 10,
    temperature := 6500,
    spot_size_deg := 45,
    spot_blend := 0.15,
    ss_preset_name := none,
    ss_base_lumens := none,
    ss_base_beam_angle := none,
    ss_power_watts := none,
    ss_power_percent := none,
    ss_effective_lumens := none,
    ss_modifiers := [] }

/-- Applying a whole list of modifiers in order (left fold, as successive
operator invocations do in the host). -/
def applyMods (light : LightData) (ms : List ModifierData) : LightData :=
  ms.foldl (fun l m => (apply_modifier_to_light l (some m)).2) light

/-- The resolved name the source stores on the stack for a modifier. -/
def nameOf (m : ModifierData) : List Char := m.name.getD unknownName

/-- A concrete 12000-lumen, 120° preset (the spec's running example). -/
def presetCOB : PresetData :=
  { name := some ['C', 'O', 'B'],
    specs := some
      { lumens := some 12000,
        beam_angle_deg := some 120,
        power_watts := some 200,
        cct_kelvin := some 5600 } }

/-- A concrete softbox modifier: 30% light loss, 90° output, softness 0.75. -/
def softboxMod : ModifierData :=
  { name := some ['S', 'B'],
    mtype := ModKind.softbox,
    specs := some
      { light_loss_percent := some 30,
        output_beam_angle_deg := some 90,
        edge_falloff := none,
        beam_angle_modifier_deg := none,
        softness := some 0.75 } }

/-- A light preset whose specs carry a negative lumen rating (out of the
spec's physical range). -/
def presetNeg : PresetData :=
  { name := some ['N'],
    specs := some
      { lumens := some (-5),
        beam_angle_deg := some 120,
        power_watts := none,
        cct_kelvin := none } }

/-- The fresh light after applying the 12000-lumen COB preset. -/
def cobLight : LightData := (apply_light_preset initLight (some presetCOB)).2

/-- The COB light after stacking the softbox modifier seven times. -/
def cobLight7 : LightData := applyMods cobLight (List.replicate 7 softboxMod)

/-- A light whose dimming state was already set to 50% before any preset. -/
def dimmedLight : LightData := { initLight with ss_power_percent := some 50 }

/-- The dimmed light after applying the COB preset (effective lumens 6000). -/
def dimmedCob : LightData := (apply_light_preset dimmedLight (some presetCOB)).2

/-- A spot light whose stored base beam angle is 170 degrees. -/
def light170 : LightData :=
  { initLight with type := LType.spot, ss_base_beam_angle := some 170 }

/-- Modifier specs of a diffuser that widens the beam by 30 degrees. -/
def diffSpecs30 : ModifierSpecs :=
  { light_loss_percent := none,
    output_beam_angle_deg := none,
    edge_falloff := none,
    beam_angle_modifier_deg := some 30,
    softness := none }

/-- Modifier specs of a grid whose output angle is 200 degrees. -/
def gridSpecs200 : ModifierSpecs :=
  { light_loss_percent := none,
    output_beam_angle_deg := some 200,
    edge_falloff := none,
    beam_angle_modifier_deg := none,
    softness := none }

/-- Right-nested comma-joined rendering of a list of names, exactly the shape
`ss_modifiers` takes after successive `apply_modifier_to_light` calls that
started from the empty string. -/
def joinNames : List (List Char) → List Char
  | [] => []
  | n :: rest => n ++ (rest.map (fun r => ',' :: r)).flatten

/-! ## Claim C2 — validation of light specs on applyPreset -/

/-- C2 counterexample: `apply_light_preset` accepts a spec with
`baseLumens = -5 < 0` and succeeds (returns `True`), storing the negative
base; the claimed `InvalidSpecError` rejection does not exist in the code. -/
theorem c2_counterexample :
    (apply_light_preset initLight (some presetNeg)).1 = true ∧
    (apply_light_preset initLight (some presetNeg)).2.ss_base_lumens = some (-5) ∧
    (-5 : ℚ) < 0 := by
  refine ⟨rfl, rfl, by norm_num⟩

/-- C2 amended: `apply_light_preset` performs no range validation at all — it
fails exactly when the preset record is missing or has no `specs` entry, and
succeeds on every record that has one, negative lumens and out-of-range beam
angles included. -/
theorem c2_no_validation (light : LightData) (pd : Option PresetData) :
    (apply_light_preset light pd).1 = (pd.bind PresetData.specs).isSome := by
  cases pd with
  | none => rfl
  | some d =>
    obtain ⟨nm, sp⟩ := d
    cases sp with
    | none => rfl
    | some s => rfl

/-! ## Claim C4 — applyModifier uses only the newest modifier's loss -/

/-- C4: for every prior light state (any modifier stack) and every modifier
with specs present, `apply_modifier_to_light` succeeds and recomputes
effective lumens as `baseLumens * (1 - lightLossPercent/100)` from the
newest modifier alone — no product or sum over the stack. -/
theorem c4_most_recent_loss (light : LightData) (nm : Option (List Char))
    (t : ModKind) (s : ModifierSpecs) :
    (apply_modifier_to_light light
      (some { name := nm, mtype := t, specs := some s })).1 = true ∧
    (apply_modifier_to_light light
      (some { name := nm, mtype := t, specs := some s })).2.ss_effective_lumens =
      some (light.ss_base_lumens.getD (light.energy * 100) *
        (1 - s.light_loss_percent.getD 0 / 100)) := by
  exact ⟨rfl, rfl⟩

/-! ## Claim C6 — clearModifiers restores the base values -/

/-- C6: on a spot light, `clear_modifiers` empties the modifier stack, sets
effective lumens back to the stored base lumens (at 100%, ignoring the stored
power percent), the beam angle back to the stored base angle, and the blend
to 0.15. -/
theorem c6_clear_restores (light : LightData) (h : light.type = LType.spot) :
    (clear_modifiers light).ss_modifiers = [] ∧
    (clear_modifiers light).ss_effective_lumens =
      some (light.ss_base_lumens.getD (light.energy * 100)) ∧
    (clear_modifiers light).spot_size_deg = light.ss_base_beam_angle.getD 120 ∧
    (clear_modifiers light).spot_blend = 0.15 := by
  refine ⟨rfl, rfl, ?_, ?_⟩ <;> simp [clear_modifiers, h]

/-- C6 witness: the restoration equations evaluated on the concrete COB
light. -/
theorem c6_witness :
    (clear_modifiers cobLight).ss_modifiers = [] ∧
    (clear_modifiers cobLight).ss_effective_lumens =
      some (cobLight.ss_base_lumens.getD (cobLight.energy * 100)) ∧
    (clear_modifiers cobLight).spot_size_deg = cobLight.ss_base_beam_angle.getD 120 ∧
    (clear_modifiers cobLight).spot_blend = 0.15 :=
  c6_clear_restores cobLight (by decide)

/-! ## Claim C8 — diffuser beam widening is capped at 180 degrees -/

/-- C8: on a spot light, applying a diffuser sets the beam angle to
`min (baseBeamAngle + beamAngleModifierDegrees, 180)` — additive and capped. -/
theorem c8_diffuser_cap (light : LightData) (nm : Option (List Char))
    (s : ModifierSpecs) (h : light.type = LType.spot) :
    (apply_modifier_to_light light
      (some { name := nm, mtype := ModKind.diffuser, specs := some s })).2.spot_size_deg =
      min (light.ss_base_beam_angle.getD 120 + s.beam_angle_modifier_deg.getD 0) 180 := by
  by_cases hm : light.ss_modifiers = [] <;>
    simp [apply_modifier_to_light, h, hm]

/-- C8 witness: a diffuser adding 30 degrees to a 170-degree base yields 180,
not 200. -/
theorem c8_witness :
    (apply_modifier_to_light light170
      (some { name := some ['D'], mtype := ModKind.diffuser,
              specs := some diffSpecs30 })).2.spot_size_deg = 180 := by
  rw [c8_diffuser_cap light170 (some ['D']) diffSpecs30 rfl]
  norm_num [light170, initLight, diffSpecs30]

/-! ## Claim C9 — failed operations leave the light unchanged -/

/-- C9: whenever `apply_light_preset` or `apply_modifier_to_light` reports
failure (missing record or record without `specs`), the returned light state
is exactly the input state — failure is a full no-op. -/
theorem c9_atomic_failure (light : LightData) (pd : Option PresetData)
    (md : Option ModifierData) :
    ((apply_light_preset light pd).1 = false →
      (apply_light_preset light pd).2 = light) ∧
    ((apply_modifier_to_light light md).1 = false →
      (apply_modifier_to_light light md).2 = light) := by
  constructor
  · cases pd with
    | none => intro _; rfl
    | some d =>
      obtain ⟨nm, sp⟩ := d
      cases sp with
      | none => intro _; rfl
      | some s => intro h; exact absurd h (by simp [apply_light_preset])
  · cases md with
    | none => intro _; rfl
    | some m =>
      obtain ⟨nm, t, sp⟩ := m
      cases sp with
      | none => intro _; rfl
      | some s => intro h; exact absurd h (by simp [apply_modifier_to_light])

/-- C9 witness: a missing preset record and a missing modifier record each
leave the fresh light untouched. -/
theorem c9_witness :
    (apply_light_preset initLight none).2 = initLight ∧
    (apply_modifier_to_light initLight none).2 = initLight :=
  ⟨(c9_atomic_failure initLight none none).1 rfl,
   (c9_atomic_failure initLight none none).2 rfl⟩

/-! ## Claim C10 — grid override angle is not capped at 180 degrees -/

/-- C10: on a spot light, a grid modifier overrides the beam angle with its
`output_beam_angle_deg` verbatim; when that value exceeds 180 the resulting
angle exceeds 180 — unlike the preset and diffuser paths there is no cap. -/
theorem c10_grid_uncapped (light : LightData) (nm : Option (List Char))
    (s : ModifierSpecs) (a : ℚ) (h : light.type = LType.spot)
    (ha : s.output_beam_angle_deg = some a) (hgt : 180 < a) :
    (apply_modifier_to_light light
      (some { name := nm, mtype := ModKind.grid, specs := some s })).2.spot_size_deg = a ∧
    180 < (apply_modifier_to_light light
      (some { name := nm, mtype := ModKind.grid, specs := some s })).2.spot_size_deg := by
  have heq : (apply_modifier_to_light light
      (some { name := nm, mtype := ModKind.grid, specs := some s })).2.spot_size_deg = a := by
    by_cases hm : light.ss_modifiers = [] <;>
      simp [apply_modifier_to_light, h, hm, ha]
  exact ⟨heq, heq ▸ hgt⟩

/-- C10 witness: a grid with a 200-degree output angle on the concrete COB
spot light produces a 200-degree cone. -/
theorem c10_witness :
    (apply_modifier_to_light cobLight
      (some { name := some ['G'], mtype := ModKind.grid,
              specs := some gridSpecs200 })).2.spot_size_deg = 200 ∧
    180 < (apply_modifier_to_light cobLight
      (some { name := some ['G'], mtype := ModKind.grid,
              specs := some gridSpecs200 })).2.spot_size_deg :=
  c10_grid_uncapped cobLight (some ['G']) gridSpecs200 200 (by decide) rfl (by norm_num)

/-! ## Claim C7 — applyPreset initializes but never resets the power percent -/

/-- C7: `apply_light_preset` stores power percent 100 when none was set and
preserves any value already present, and the computed effective lumens equal
`baseLumens * (powerPercent/100)` with that (preserved or initialized)
value. -/
theorem c7_power_preserved (light : LightData) (nm : Option (List Char))
    (s : LightSpecs) :
    (apply_light_preset light (some { name := nm, specs := some s })).2.ss_power_percent =
      some (light.ss_power_percent.getD 100) ∧
    (apply_light_preset light (some { name := nm, specs := some s })).2.ss_effective_lumens =
      some (s.lumens.getD 12000 * (light.ss_power_percent.getD 100 / 100)) := by
  cases hp : light.ss_power_percent with
  | none => simp [apply_light_preset, hp]
  | some p => simp [apply_light_preset, hp]

/-! ## Claim C1 — non-negativity of the derived effective lumens -/

/-- C1 counterexample: with seven modifiers stacked (a state reached purely
by engine operations: one applyPreset followed by seven applyModifier calls),
`update_power_percent` computes a flat loss of `7 * 0.15 = 1.05 > 1` and
derives the negative effective lumens value `-600`. -/
theorem c1_counterexample :
    (update_power_percent cobLight7).ss_effective_lumens = some (-600) ∧
    (-600 : ℚ) < 0 := by
  have h1 : cobLight7.ss_base_lumens = some 12000 := by decide
  have h2 : cobLight7.ss_power_percent = some 100 := by decide
  have h3 : ¬cobLight7.ss_modifiers = [] := by decide
  have h4 : ((cobLight7.ss_modifiers.splitOn ',').length : ℚ) = 7 := by
    norm_num [show (cobLight7.ss_modifiers.splitOn ',').length = 7 from by decide]
  refine ⟨?_, by norm_num⟩
  simp only [update_power_percent, h1, h2, h3, h4, if_false, Option.getD_some]
  norm_num

/-- C1 amended: `update_power_percent` yields a non-negative effective lumens
value provided the stored base lumens and power percent are non-negative and
the comma-separated modifier list it counts has at most six entries; the flat
`0.15`-per-modifier estimate makes the value negative once seven or more
modifiers are stacked. -/
theorem c1_amended_nonneg (light : LightData)
    (hbase : 0 ≤ light.ss_base_lumens.getD 12000)
    (hpct : 0 ≤ light.ss_power_percent.getD 100)
    (hcount : (light.ss_modifiers.splitOn ',').length ≤ 6) :
    0 ≤ (update_power_percent light).ss_effective_lumens.getD 0 := by
  have hp : (0 : ℚ) ≤ light.ss_power_percent.getD 100 / 100 :=
    div_nonneg hpct (by norm_num)
  by_cases hm : light.ss_modifiers = []
  · simp only [update_power_percent, hm, if_true, Option.getD_some]
    have := mul_nonneg hbase hp
    nlinarith
  · have hn : ((light.ss_modifiers.splitOn ',').length : ℚ) ≤ 6 := by
      exact_mod_cast hcount
    simp only [update_power_percent, hm, if_false, Option.getD_some]
    have hloss : ((light.ss_modifiers.splitOn ',').length : ℚ) * 0.15 ≤ 0.9 := by
      nlinarith
    have h1 : (0 : ℚ) ≤ 1 - ((light.ss_modifiers.splitOn ',').length : ℚ) * 0.15 := by
      linarith
    have := mul_nonneg (mul_nonneg hbase hp) h1
    nlinarith

/-- C1 amended witness: the bound applied to the concrete COB light with an
empty modifier stack. -/
theorem c1_amended_witness :
    0 ≤ (update_power_percent cobLight).ss_effective_lumens.getD 0 :=
  c1_amended_nonneg cobLight (by decide) (by decide) (by decide)

/-! ## Claim C3 — applyPreset then clearModifiers versus applyPreset alone -/

/-- C3 counterexample: with a prior power percent of 50, applying the COB
preset derives effective lumens 6000, but an immediate `clear_modifiers`
yields 12000 — the two effective outputs differ, because `clear_modifiers`
restores the base at 100% instead of reapplying the stored power percent. -/
theorem c3_counterexample :
    effectiveOutput (clear_modifiers dimmedCob) ≠ effectiveOutput dimmedCob := by
  intro h
  have hlum := congrArg EffectiveOutput.effectiveLumens h
  have h1 : (clear_modifiers dimmedCob).ss_effective_lumens = some 12000 := rfl
  have h2 : dimmedCob.ss_effective_lumens = some (12000 * (50 / 100)) := rfl
  simp only [effectiveOutput, h1, h2] at hlum
  rw [Option.some_inj] at hlum
  norm_num at hlum

/-- C3 amended: the round trip `clear_modifiers` after `apply_light_preset`
reproduces the effective output of `apply_light_preset` alone for every valid
spec (beam angle at most 180), provided the power percent is unset or exactly
100 beforehand; the dimmed case is excluded by the counterexample. -/
theorem c3_amended_roundtrip (light : LightData) (nm : Option (List Char))
    (s : LightSpecs)
    (hpct : light.ss_power_percent = none ∨ light.ss_power_percent = some 100)
    (hangle : s.beam_angle_deg.getD 120 ≤ 180) :
    effectiveOutput
      (clear_modifiers (apply_light_preset light (some { name := nm, specs := some s })).2) =
    effectiveOutput (apply_light_preset light (some { name := nm, specs := some s })).2 := by
  have hmin : min (s.beam_angle_deg.getD 120) 180 = s.beam_angle_deg.getD 120 :=
    min_eq_left hangle
  obtain h | h := hpct <;>
    simp [apply_light_preset, clear_modifiers, effectiveOutput, h, hmin]

/-- C3 amended witness: the round trip evaluated on the fresh light (power
percent not yet set) with the concrete COB preset. -/
theorem c3_amended_witness :
    effectiveOutput (clear_modifiers (apply_light_preset initLight (some presetCOB)).2) =
    effectiveOutput (apply_light_preset initLight (some presetCOB)).2 := by
  have h := c3_amended_roundtrip initLight (presetCOB.name)
    { lumens := some 12000, beam_angle_deg := some 120,
      power_watts := some 200, cct_kelvin := some 5600 }
    (Or.inl rfl) (by norm_num)
  exact h

/-! ## Helper lemmas about the modifier stack string -/

/-- `apply_modifier_to_light` never touches the stored base lumens or the
power percent. -/
theorem apply_modifier_base_fields (l : LightData) (md : Option ModifierData) :
    (apply_modifier_to_light l md).2.ss_base_lumens = l.ss_base_lumens ∧
    (apply_modifier_to_light l md).2.ss_power_percent = l.ss_power_percent := by
  cases md with
  | none => exact ⟨rfl, rfl⟩
  | some m =>
    obtain ⟨nm, t, sp⟩ := m
    cases sp with
    | none => exact ⟨rfl, rfl⟩
    | some s =>
      cases t <;> by_cases ht : l.type = LType.spot <;>
        by_cases hm : l.ss_modifiers = [] <;>
        simp [apply_modifier_to_light, ht, hm]

/-- A successful `apply_modifier_to_light` appends the modifier's resolved
name to the comma-separated stack string (or starts the string when it was
empty). -/
theorem apply_modifier_ss_modifiers (l : LightData) (m : ModifierData)
    (s : ModifierSpecs) (hsp : m.specs = some s) :
    (apply_modifier_to_light l (some m)).2.ss_modifiers =
      if l.ss_modifiers = [] then nameOf m
      else l.ss_modifiers ++ ',' :: nameOf m := by
  obtain ⟨nm, t, sp⟩ := m
  simp only [ModifierData.specs] at hsp
  subst hsp
  cases t <;> by_cases ht : l.type = LType.spot <;>
    by_cases hm : l.ss_modifiers = [] <;>
    simp [apply_modifier_to_light, nameOf, ht, hm]

/-- Unfolding `applyMods` on the empty list. -/
theorem applyMods_nil (l : LightData) : applyMods l [] = l := rfl

/-- Unfolding `applyMods` on a cons. -/
theorem applyMods_cons (l : LightData) (m : ModifierData) (ms : List ModifierData) :
    applyMods l (m :: ms) = applyMods (apply_modifier_to_light l (some m)).2 ms := rfl

/-- Applying any list of modifiers preserves the stored base lumens and the
power percent. -/
theorem applyMods_base_fields (ms : List ModifierData) : ∀ l : LightData,
    (applyMods l ms).ss_base_lumens = l.ss_base_lumens ∧
    (applyMods l ms).ss_power_percent = l.ss_power_percent := by
  induction ms with
  | nil => exact fun l => ⟨rfl, rfl⟩
  | cons m rest ih =>
    intro l
    rw [applyMods_cons]
    obtain ⟨h1, h2⟩ := ih (apply_modifier_to_light l (some m)).2
    obtain ⟨g1, g2⟩ := apply_modifier_base_fields l (some m)
    exact ⟨h1.trans g1, h2.trans g2⟩

/-- Growing a non-empty stack string: each successful modifier application
appends a comma and the modifier's name. -/
theorem applyMods_mods_ne_nil (ms : List ModifierData) : ∀ l : LightData,
    l.ss_modifiers ≠ [] → (∀ m ∈ ms, m.specs.isSome) →
    (applyMods l ms).ss_modifiers =
      l.ss_modifiers ++ (ms.map (fun m => ',' :: nameOf m)).flatten := by
  induction ms with
  | nil => intro l _ _; simp [applyMods_nil]
  | cons m rest ih =>
    intro l h hs
    obtain ⟨s, hsp⟩ := Option.isSome_iff_exists.mp (hs m (List.mem_cons_self m rest))
    have hstep := apply_modifier_ss_modifiers l m s hsp
    rw [if_neg h] at hstep
    have h1 : (apply_modifier_to_light l (some m)).2.ss_modifiers ≠ [] := by
      rw [hstep]; simp
    rw [applyMods_cons, ih _ h1 (fun x hx => hs x (List.mem_cons_of_mem _ hx)), hstep]
    simp [List.append_assoc]

/-- Starting from an empty stack string, applying a list of modifiers with
non-empty names produces exactly the comma-joined list of their names. -/
theorem applyMods_mods_from_empty (ms : List ModifierData) (l : LightData)
    (h : l.ss_modifiers = []) (hs : ∀ m ∈ ms, m.specs.isSome)
    (hn : ∀ m ∈ ms, nameOf m ≠ []) :
    (applyMods l ms).ss_modifiers = joinNames (ms.map nameOf) := by
  cases ms with
  | nil => simpa [applyMods_nil, joinNames] using h
  | cons m rest =>
    obtain ⟨s, hsp⟩ := Option.isSome_iff_exists.mp (hs m (List.mem_cons_self m rest))
    have hstep := apply_modifier_ss_modifiers l m s hsp
    rw [if_pos h] at hstep
    have h1 : (apply_modifier_to_light l (some m)).2.ss_modifiers ≠ [] := by
      rw [hstep]; exact hn m (List.mem_cons_self m rest)
    rw [applyMods_cons,
      applyMods_mods_ne_nil rest _ h1 (fun x hx => hs x (List.mem_cons_of_mem _ hx)),
      hstep]
    simp [joinNames, List.map_map, Function.comp_def]

/-- Splitting the comma-joined rendering of comma-free names recovers the
names: the count seen by `update_power_percent` is the stack length. -/
theorem splitOn_joinNames (ns : List (List Char)) (h : ∀ n ∈ ns, ',' ∉ n)
    (hne : ns ≠ []) : (joinNames ns).splitOn ',' = ns := by
  induction ns with
  | nil => exact absurd rfl hne
  | cons n rest ih =>
    cases rest with
    | nil =>
      have hsingle : joinNames [n] = n := by simp [joinNames]
      rw [hsingle]
      show n.splitOnP (fun x => x == ',') = [n]
      apply List.splitOnP_eq_single
      intro x hx
      simp only [beq_iff_eq]
      intro heq
      exact h n (List.mem_cons_self n []) (heq ▸ hx)
    | cons m rest2 =>
      have hjoin : joinNames (n :: m :: rest2) = n ++ ',' :: joinNames (m :: rest2) := by
        simp [joinNames]
      rw [hjoin]
      show (n ++ ',' :: joinNames (m :: rest2)).splitOnP (fun x => x == ',') = _
      rw [List.splitOnP_first _ _ ?_ ',' (by simp) (joinNames (m :: rest2))]
      · have := ih (fun x hx => h x (List.mem_cons_of_mem _ hx)) (by simp)
        rw [show (joinNames (m :: rest2)).splitOnP (fun x => x == ',') =
            (joinNames (m :: rest2)).splitOn ',' from rfl, this]
      · intro x hx
        simp only [beq_iff_eq]
        intro heq
        exact h n (List.mem_cons_self n _) (heq ▸ hx)

/-! ## Claim C5 — the flat 15%-per-modifier estimate of updatePowerPercent -/

/-- C5: after stacking any list of modifiers (comma-free non-empty names,
specs present) on a light whose stack string started empty,
`update_power_percent` derives
`effectiveLumens = baseLumens * (powerPercent/100) * (1 - n * 0.15)` with `n`
the number of stacked modifiers — a flat 15% per modifier, independent of
each modifier's own light loss — and `energy = effectiveLumens / 100`; an
empty stack contributes no loss. -/
theorem c5_flat_estimate (light : LightData) (ms : List ModifierData)
    (h0 : light.ss_modifiers = [])
    (hm : ∀ m ∈ ms, m.specs.isSome ∧ nameOf m ≠ [] ∧ ',' ∉ nameOf m) :
    (update_power_percent (applyMods light ms)).ss_effective_lumens =
      some (light.ss_base_lumens.getD 12000 * (light.ss_power_percent.getD 100 / 100) *
        (1 - (ms.length : ℚ) * 0.15)) ∧
    (update_power_percent (applyMods light ms)).energy =
      light.ss_base_lumens.getD 12000 * (light.ss_power_percent.getD 100 / 100) *
        (1 - (ms.length : ℚ) * 0.15) / 100 := by
  obtain ⟨hb, hp⟩ := applyMods_base_fields ms light
  cases ms with
  | nil =>
    rw [applyMods_nil]
    constructor <;> simp [update_power_percent, h0]
  | cons m rest =>
    have hmods : (applyMods light (m :: rest)).ss_modifiers =
        joinNames ((m :: rest).map nameOf) :=
      applyMods_mods_from_empty _ _ h0 (fun x hx => (hm x hx).1) (fun x hx => (hm x hx).2.1)
    have hsplit : (joinNames ((m :: rest).map nameOf)).splitOn ',' = (m :: rest).map nameOf := by
      apply splitOn_joinNames
      · intro n hn
        obtain ⟨x, hx, rfl⟩ := List.mem_map.mp hn
        exact (hm x hx).2.2
      · simp
    have hne : (applyMods light (m :: rest)).ss_modifiers ≠ [] := by
      rw [hmods]
      simp only [joinNames, List.map_cons]
      simp [(hm m (List.mem_cons_self m rest)).2.1]
    have hlen : (((applyMods light (m :: rest)).ss_modifiers.splitOn ',').length : ℚ) =
        ((m :: rest).length : ℚ) := by
      rw [hmods, hsplit, List.length_map]
    constructor <;>
      simp only [update_power_percent, hb, hp, hne, if_false, hlen, Option.getD_some]

/-- C5 witness: the formula evaluated with one concrete softbox modifier on
the concrete COB light. -/
theorem c5_witness :
    (update_power_percent (applyMods cobLight [softboxMod])).ss_effective_lumens =
      some (cobLight.ss_base_lumens.getD 12000 * (cobLight.ss_power_percent.getD 100 / 100) *
        (1 - (([softboxMod] : List ModifierData).length : ℚ) * 0.15)) ∧
    (update_power_percent (applyMods cobLight [softboxMod])).energy =
      cobLight.ss_base_lumens.getD 12000 * (cobLight.ss_power_percent.getD 100 / 100) *
        (1 - (([softboxMod] : List ModifierData).length : ℚ) * 0.15) / 100 :=
  c5_flat_estimate cobLight [softboxMod] (by decide) (by decide)

end SimStudio
